import Mathlib

/-
  Verification of the console-automation core of the gotham-iot-testbed
  repository (files gns3/gns3utils.py and gns3/scenario.py).

  The embedding models the two expect-style telnet dialogues
  (install_vyos_image_on_node and configure_vyos_image_on_node), the
  MD5 file digest (md5sum_file), the base64 upload encoding, and the
  console endpoint resolution (get_node_telnet_host_port).

  Modelling conventions:
  - Bytes are Nat values below 256; byte strings are List Nat.
  - The remote console is a double: an environment mapping the index of
    each read operation (read_until or expect call, in program order) to
    its result.  ReadResult.matched d means the expected pattern appeared
    and the read returned with data d; ReadResult.timedOut d means the
    pattern never appeared before the deadline of the expect call (for
    the initial deadline-free read_until this means the session hangs);
    ReadResult.eof means the connection hit end of file, which telnetlib
    surfaces as an EOFError exception.
  - A session run produces a trace of observable events (transport
    writes, transport open and close, file reads, warnings, helper
    process spawn and kill) together with an exit status.  The exit
    status Exit.exc models an exception propagating out of the function,
    Exit.earlyRet the explicit early return in the configure dialogue,
    Exit.hang a read that blocks forever (so the function never returns).
  - The printing of received bytes to stdout is not modelled, and byte
    sequences handed to print are assumed decodable; stdout output has no
    effect on the dialogue.
-/

/-- Byte list of an ASCII string literal, as the Python bytes literal. -/
def strBytes (s : String) : List Nat := s.toList.map Char.toNat

/-- String built from a list of byte values, one character per byte. -/
def bytesToString (l : List Nat) : String := String.mk (l.map Char.ofNat)

/-- Observable events of one provisioning session. -/
inductive Event where
  | opened : Event
  | wrote (data : List Nat) : Event
  | fileRead (path : String) : Event
  | warned : Event
  | spawned : Event
  | killed : Event
  | closed : Event
deriving DecidableEq, Repr

/-- Result of one console read operation, decided by the console double. -/
inductive ReadResult where
  | matched (data : List Nat) : ReadResult
  | timedOut (data : List Nat) : ReadResult
  | eof : ReadResult
deriving DecidableEq, Repr

/-- Console double: result of the n-th read operation of the session. -/
def Env : Type := Nat → ReadResult

/-- True when the read returned with a pattern match. -/
def ReadResult.isMatched : ReadResult → Bool
  | ReadResult.matched _ => true
  | _ => false

/-- How a session body finished. -/
inductive Exit where
  | normal : Exit
  | earlyRet : Exit
  | exc : Exit
  | hang : Exit
deriving DecidableEq, Repr

/-- One send-and-expect exchange of a dialogue: the bytes written, the
pattern bytes given to expect, and the timeout argument of the expect
call (none for the deadline-free initial read_until). -/
structure Step where
  send : List Nat
  pat : List Nat
  deadline : Option Nat
deriving DecidableEq, Repr

/-- Run a list of uniform send-and-expect exchanges, mirroring the
repeated write/expect/print stanzas of the Python code: the write always
happens, an expect timeout is ignored and the dialogue continues (the
code only prints the -1 match index), and an EOFError aborts the rest.
Returns the write events and whether an EOFError was raised. -/
def runSteps (env : Env) : Nat → List Step → List Event × Bool
  | _, [] => ([], false)
  | i, s :: rest =>
    match env i with
    | ReadResult.eof => ([Event.wrote s.send], true)
    | _ =>
      let r := runSteps env (i + 1) rest
      (Event.wrote s.send :: r.1, r.2)

/-- Python with-statement plus trailing helper cleanup, shared by both
dialogues: front events (helper spawn, file reads) happen before the
body; the context manager closes the transport on normal exit, early
return and exception alike (but never returns from a hang); the trailing
pre_proc.kill() only runs when the body completes normally, because an
early return or an exception leaves the function before reaching it. -/
def sessionWrap (pre_exec : Option String) (front : List Event) (body : List Event × Exit) : List Event × Exit :=
  match body.2 with
  | Exit.hang => (front ++ body.1, Exit.hang)
  | Exit.normal =>
      (front ++ body.1 ++ [Event.closed] ++ (if pre_exec.isSome then [Event.killed] else []), Exit.normal)
  | e => (front ++ body.1 ++ [Event.closed], e)

/-- Base64 value of one sextet, per the standard alphabet used by the
Python base64.b64encode call in the source. -/
def b64char (n : Nat) : Nat :=
  if n < 26 then 65 + n
  else if n < 52 then 71 + n
  else if n < 62 then n - 4
  else if n = 62 then 43
  else 47

/-- Sextet value of one base64 alphabet byte, none for other bytes. -/
def b64val (c : Nat) : Option Nat :=
  if 65 ≤ c ∧ c ≤ 90 then some (c - 65)
  else if 97 ≤ c ∧ c ≤ 122 then some (c - 71)
  else if 48 ≤ c ∧ c ≤ 57 then some (c + 4)
  else if c = 43 then some 62
  else if c = 47 then some 63
  else none

/-- Standard base64 encoding of a byte list with padding, as produced by
base64.b64encode in the source. -/
def b64encode : List Nat → List Nat
  | [] => []
  | [a] => [b64char (a / 4), b64char (a % 4 * 16), 61, 61]
  | [a, b] => [b64char (a / 4), b64char (a % 4 * 16 + b / 16), b64char (b % 16 * 4), 61]
  | a :: b :: c :: rest =>
      b64char (a / 4) :: b64char (a % 4 * 16 + b / 16) ::
        b64char (b % 16 * 4 + c / 64) :: b64char (c % 64) :: b64encode rest

/-- Standard base64 decoding of a padded base64 byte stream, none on
malformed input.  Models the decoding step that the remote base64
--decode command performs on the uploaded file. -/
def b64decode : List Nat → Option (List Nat)
  | [] => some []
  | w :: x :: y :: z :: rest =>
    (match b64val w, b64val x with
     | some a, some b =>
       if z = 61 then
         if rest.isEmpty then
           if y = 61 then some [a * 4 + b / 16]
           else
             match b64val y with
             | some c => some [a * 4 + b / 16, b % 16 * 16 + c / 4]
             | none => none
         else none
       else
         match b64val y, b64val z with
         | some c, some d =>
             (b64decode rest).map
               (fun tail => (a * 4 + b / 16) :: (b % 16 * 16 + c / 4) :: (c % 4 * 64 + d) :: tail)
         | _, _ => none
     | _, _ => none)
  | _ => none

/-- The GNU base64 --decode command ignores newline bytes in its input. -/
def gnuB64Decode (l : List Nat) : Option (List Nat) :=
  b64decode (l.filter (fun b => b != 10))

theorem b64val_b64char (n : Nat) (h : n < 64) : b64val (b64char n) = some n := by
  unfold b64val b64char
  split_ifs <;> simp_all <;> omega

theorem b64char_ne_61 (n : Nat) (h : n < 64) : b64char n ≠ 61 := by
  unfold b64char
  split_ifs <;> omega

theorem b64char_ne_10 (n : Nat) : b64char n ≠ 10 := by
  unfold b64char
  split_ifs <;> omega

/-- Base64 round trip: decoding the encoding returns the input bytes. -/
theorem b64decode_b64encode : ∀ (l : List Nat), (∀ b ∈ l, b < 256) → b64decode (b64encode l) = some l
  | [], _ => rfl
  | [a], h => by
      have ha : a < 256 := h a (by simp)
      have e1 : b64val (b64char (a / 4)) = some (a / 4) := b64val_b64char _ (by omega)
      have e2 : b64val (b64char (a % 4 * 16)) = some (a % 4 * 16) := b64val_b64char _ (by omega)
      simp only [b64encode, b64decode, e1, e2, List.isEmpty_nil, if_true]
      simp only [Option.some.injEq, List.cons.injEq, and_true]
      omega
  | [a, b], h => by
      have ha : a < 256 := h a (by simp)
      have hb : b < 256 := h b (by simp)
      have e1 : b64val (b64char (a / 4)) = some (a / 4) := b64val_b64char _ (by omega)
      have e2 : b64val (b64char (a % 4 * 16 + b / 16)) = some (a % 4 * 16 + b / 16) :=
        b64val_b64char _ (by omega)
      have e3 : b64val (b64char (b % 16 * 4)) = some (b % 16 * 4) := b64val_b64char _ (by omega)
      have n3 : b64char (b % 16 * 4) ≠ 61 := b64char_ne_61 _ (by omega)
      simp only [b64encode, b64decode, e1, e2, e3, if_neg n3, List.isEmpty_nil, if_true]
      simp only [Option.some.injEq, List.cons.injEq, and_true]
      constructor <;> omega
  | a :: b :: c :: rest, h => by
      have ha : a < 256 := h a (by simp)
      have hb : b < 256 := h b (by simp)
      have hc : c < 256 := h c (by simp)
      have ih : b64decode (b64encode rest) = some rest :=
        b64decode_b64encode rest (fun x hx => h x (by simp [hx]))
      have e1 : b64val (b64char (a / 4)) = some (a / 4) := b64val_b64char _ (by omega)
      have e2 : b64val (b64char (a % 4 * 16 + b / 16)) = some (a % 4 * 16 + b / 16) :=
        b64val_b64char _ (by omega)
      have e3 : b64val (b64char (b % 16 * 4 + c / 64)) = some (b % 16 * 4 + c / 64) :=
        b64val_b64char _ (by omega)
      have e4 : b64val (b64char (c % 64)) = some (c % 64) := b64val_b64char _ (by omega)
      have n4 : b64char (c % 64) ≠ 61 := b64char_ne_61 _ (by omega)
      cases rest with
      | nil =>
          simp only [b64encode, b64decode, e1, e2, e3, e4, if_neg n4, Option.map_some']
          simp only [Option.some.injEq, List.cons.injEq, and_true]
          refine ⟨by omega, by omega, by omega⟩
      | cons r0 rtail =>
          simp only [b64encode] at ih ⊢
          simp only [b64decode, e1, e2, e3, e4, if_neg n4, ih, Option.map_some']
          simp only [Option.some.injEq, List.cons.injEq, and_true]
          refine ⟨by omega, by omega, by omega⟩

/-- Low 32 bits of a natural number. -/
def mask32 (x : Nat) : Nat := x % 4294967296

/-- Left rotation of a 32-bit value by s bit positions. -/
def rotl32 (x s : Nat) : Nat := mask32 (x * 2 ^ s) + x / 2 ^ (32 - s)

/-- MD5 sine-derived round constants, RFC 1321. -/
def md5K : List Nat :=
  [0xd76aa478, 0xe8c7b756, 0x242070db, 0xc1bdceee,
   0xf57c0faf, 0x4787c62a, 0xa8304613, 0xfd469501,
   0x698098d8, 0x8b44f7af, 0xffff5bb1, 0x895cd7be,
   0x6b901122, 0xfd987193, 0xa679438e, 0x49b40821,
   0xf61e2562, 0xc040b340, 0x265e5a51, 0xe9b6c7aa,
   0xd62f105d, 0x02441453, 0xd8a1e681, 0xe7d3fbc8,
   0x21e1cde6, 0xc33707d6, 0xf4d50d87, 0x455a14ed,
   0xa9e3e905, 0xfcefa3f8, 0x676f02d9, 0x8d2a4c8a,
   0xfffa3942, 0x8771f681, 0x6d9d6122, 0xfde5380c,
   0xa4beea44, 0x4bdecfa9, 0xf6bb4b60, 0xbebfbc70,
   0x289b7ec6, 0xeaa127fa, 0xd4ef3085, 0x04881d05,
   0xd9d4d039, 0xe6db99e5, 0x1fa27cf8, 0xc4ac5665,
   0xf4292244, 0x432aff97, 0xab9423a7, 0xfc93a039,
   0x655b59c3, 0x8f0ccc92, 0xffeff47d, 0x85845dd1,
   0x6fa87e4f, 0xfe2ce6e0, 0xa3014314, 0x4e0811a1,
   0xf7537e82, 0xbd3af235, 0x2ad7d2bb, 0xeb86d391]

/-- MD5 per-round left-rotation amounts, RFC 1321. -/
def md5S : List Nat :=
  [7, 12, 17, 22, 7, 12, 17, 22, 7, 12, 17, 22, 7, 12, 17, 22,
   5, 9, 14, 20, 5, 9, 14, 20, 5, 9, 14, 20, 5, 9, 14, 20,
   4, 11, 16, 23, 4, 11, 16, 23, 4, 11, 16, 23, 4, 11, 16, 23,
   6, 10, 15, 21, 6, 10, 15, 21, 6, 10, 15, 21, 6, 10, 15, 21]

/-- MD5 nonlinear mixing function of round i applied to b, c, d. -/
def md5mix (b c d i : Nat) : Nat :=
  if i < 16 then Nat.lor (Nat.land b c) (Nat.land (4294967295 - b) d)
  else if i < 32 then Nat.lor (Nat.land d b) (Nat.land (4294967295 - d) c)
  else if i < 48 then Nat.xor (Nat.xor b c) d
  else Nat.xor c (Nat.lor b (4294967295 - d))

/-- MD5 message word index used in round i. -/
def md5gi (i : Nat) : Nat :=
  if i < 16 then i
  else if i < 32 then (5 * i + 1) % 16
  else if i < 48 then (3 * i + 5) % 16
  else 7 * i % 16

/-- One MD5 round on the running state (a, b, c, d). -/
def md5step (M : List Nat) (st : Nat × Nat × Nat × Nat) (i : Nat) : Nat × Nat × Nat × Nat :=
  let f := mask32 (md5mix st.2.1 st.2.2.1 st.2.2.2 i + st.1 + md5K.getD i 0 + M.getD (md5gi i) 0)
  (st.2.2.2, mask32 (st.2.1 + rotl32 f (md5S.getD i 0)), st.2.1, st.2.2.1)

/-- Process one 16-word MD5 block, adding the result into the state. -/
def md5block (st : Nat × Nat × Nat × Nat) (M : List Nat) : Nat × Nat × Nat × Nat :=
  let r := (List.range 64).foldl (md5step M) st
  (mask32 (st.1 + r.1), mask32 (st.2.1 + r.2.1), mask32 (st.2.2.1 + r.2.2.1), mask32 (st.2.2.2 + r.2.2.2))

/-- Little-endian 32-bit words of a byte list, four bytes per word. -/
def toWordsLE : List Nat → List Nat
  | a :: b :: c :: d :: rest => (a + 256 * b + 65536 * c + 16777216 * d) :: toWordsLE rest
  | _ => []

/-- MD5 padding: a 0x80 byte, zeros to 56 mod 64, then the bit length
as a 64-bit little-endian number. -/
def md5pad (msg : List Nat) : List Nat :=
  msg ++ 128 :: List.replicate ((119 - msg.length % 64) % 64) 0
    ++ (List.range 8).map (fun i => 8 * msg.length % 2 ^ 64 / 2 ^ (8 * i) % 256)

/-- Split a byte list into 64-byte blocks; the fuel argument bounds the
recursion depth structurally and any fuel of at least the list length
gives the full block list. -/
def md5chunksAux : Nat → List Nat → List (List Nat)
  | 0, _ => []
  | _, [] => []
  | fuel + 1, a :: l => ((a :: l).take 64) :: md5chunksAux fuel ((a :: l).drop 64)

/-- Split a byte list into 64-byte blocks. -/
def md5chunks (l : List Nat) : List (List Nat) := md5chunksAux l.length l

/-- ASCII code of the lowercase hexadecimal digit of a value below 16. -/
def hexDigit (n : Nat) : Nat := if n < 10 then 48 + n else 87 + n

/-- Lowercase hexadecimal bytes of a 32-bit word, least significant byte
first, as in the MD5 digest string. -/
def word32HexLE (w : Nat) : List Nat :=
  [hexDigit (w / 16 % 16), hexDigit (w % 16),
   hexDigit (w / 4096 % 16), hexDigit (w / 256 % 16),
   hexDigit (w / 1048576 % 16), hexDigit (w / 65536 % 16),
   hexDigit (w / 268435456 % 16), hexDigit (w / 16777216 % 16)]

/-- MD5 digest of a byte list as a 32-character lowercase hex string,
the value of hashlib.md5(data).hexdigest() in the source. -/
def md5hex (msg : List Nat) : String :=
  let st := (md5chunks (md5pad msg)).foldl (fun s ch => md5block s (toWordsLE ch))
    (0x67452301, 0xefcdab89, 0x98badcfe, 0x10325476)
  bytesToString (word32HexLE st.1 ++ word32HexLE st.2.1 ++ word32HexLE st.2.2.1 ++ word32HexLE st.2.2.2)

/-- File MD5 checksum, from md5sum_file in the source: open the file,
read all its bytes, return the hex digest of their MD5 hash.  The file
system is modelled as a map from file names to byte contents. -/
def md5sum_file (fs : String → List Nat) (fname : String) : String :=
  md5hex (fs fname)


set_option maxRecDepth 1000000

/-- RFC 1321 test vector: digest of the empty message. -/
theorem md5hex_empty : md5hex [] = "d41d8cd98f00b204e9800998ecf8427e" := by decide

/-- RFC 1321 test vector: digest of the three-byte message abc. -/
theorem md5hex_abc : md5hex (strBytes ("abc")) = "900150983cd24fb0d6963f7d28e17f72" := by decide

/-- The shell prompt pattern bytes awaited after most commands. -/
def promptPat : List Nat := strBytes ("vyos@vyos:~\\$")

/-- The initial wait of both dialogues: tn.read_until for the login
banner, with no timeout argument, so it has no deadline at all. -/
def loginStep : Step := ⟨[], strBytes ("vyos login:"), none⟩

/-- The fourteen send-and-expect exchanges of the installation dialogue,
in source order, with the exact bytes, expect patterns and timeout
arguments of install_vyos_image_on_node. -/
def installSteps : List Step :=
  [⟨strBytes ("vyos\n"), strBytes ("Password:"), some 10⟩,
   ⟨strBytes ("vyos\n"), promptPat, some 10⟩,
   ⟨strBytes ("install image\n"), strBytes ("Would you like to continue\\? \\(Yes/No\\)"), some 10⟩,
   ⟨strBytes ("Yes\n"), strBytes ("Partition \\(Auto/Parted/Skip\\)"), some 10⟩,
   ⟨strBytes ("Auto\n"), strBytes ("Install the image on"), some 10⟩,
   ⟨strBytes ("\n"), strBytes ("Continue\\? \\(Yes/No\\)"), some 10⟩,
   ⟨strBytes ("Yes\n"), strBytes ("How big of a root partition should I create"), some 30⟩,
   ⟨strBytes ("\n"), strBytes ("What would you like to name this image"), some 30⟩,
   ⟨strBytes ("\n"), strBytes ("Which one should I copy to"), some 30⟩,
   ⟨strBytes ("\n"), strBytes ("Enter password for user ") ++ [39] ++ strBytes ("vyos") ++ [39, 58], some 10⟩,
   ⟨strBytes ("vyos\n"), strBytes ("Retype password for user ") ++ [39] ++ strBytes ("vyos") ++ [39, 58], some 10⟩,
   ⟨strBytes ("vyos\n"), strBytes ("Which drive should GRUB modify the boot partition on"), some 10⟩,
   ⟨strBytes ("\n"), promptPat, some 30⟩,
   ⟨strBytes ("poweroff\n"), strBytes ("Are you sure you want to poweroff this system"), some 10⟩]

/-- The full installation script: the deadline-free login wait followed
by the fourteen exchanges. -/
def installScript : List Step := loginStep :: installSteps

/-- Body of the install with-block: the deadline-free read_until of the
login banner (a miss hangs the session, an end of file raises), then the
fourteen exchanges, then the final confirmation write of y. -/
def installBody (env : Env) : List Event × Exit :=
  match env 0 with
  | ReadResult.timedOut _ => ([Event.opened], Exit.hang)
  | ReadResult.eof => ([Event.opened], Exit.exc)
  | ReadResult.matched _ =>
    match runSteps env 1 installSteps with
    | (evs, true) => (Event.opened :: evs, Exit.exc)
    | (evs, false) => (Event.opened :: evs ++ [Event.wrote (strBytes ("y\n"))], Exit.normal)

/-- Trace semantics of install_vyos_image_on_node: optionally spawn the
terminal-viewer helper, run the install dialogue inside the with-block,
and kill the helper after the with-block on the normal path. -/
def install_vyos_image_on_node (env : Env) (pre_exec : Option String) : List Event × Exit :=
  sessionWrap pre_exec (if pre_exec.isSome then [Event.spawned] else []) (installBody env)

/-- The shell command that uploads the base64 text: the source builds
echo, a quote byte, the encoded content, a quote byte and the appending
redirection to config.b64. -/
def uploadPayload (cfg : List Nat) : List Nat :=
  strBytes ("echo ") ++ [39] ++ cfg ++ [39] ++ strBytes (" >> config.b64\n")

/-- The first four exchanges of the configure dialogue: login name,
password, upload command, decode command. -/
def configStepsA (cfg : List Nat) : List Step :=
  [⟨strBytes ("vyos\n"), strBytes ("Password:"), some 10⟩,
   ⟨strBytes ("vyos\n"), promptPat, some 10⟩,
   ⟨uploadPayload cfg, promptPat, some 10⟩,
   ⟨strBytes ("base64 --decode config.b64 > config.sh\n"), promptPat, some 10⟩]

/-- The digest request command written before the digest pattern wait. -/
def md5Cmd : List Nat := strBytes ("md5sum config.sh\n")

/-- The digest capture pattern: 32 lowercase hex digits, two spaces and
the remote file name, as the regular expression in the source. -/
def md5Pat : List Nat := strBytes ("[0-9a-f]{32}  config.sh")

/-- The exchanges after the digest comparison: mark executable, then run
the script and await its completion marker. -/
def configStepsB : List Step :=
  [⟨strBytes ("chmod +x config.sh\n"), promptPat, some 10⟩,
   ⟨strBytes ("./config.sh\n"), strBytes ("Done"), some 60⟩]

/-- The final poweroff exchange of the configure dialogue. -/
def configStepPoweroff : Step :=
  ⟨strBytes ("poweroff\n"), strBytes ("Are you sure you want to poweroff this system"), some 10⟩

/-- First whitespace-delimited token of the captured match, decoded to
text: the source takes out[1].group().decode().split()[0]. -/
def uploadedChecksumOf (m : List Nat) : String :=
  bytesToString (m.takeWhile (fun b => !(b == 32 || b == 9 || b == 10 || b == 13)))

/-- Body of the configure with-block, mirroring the source line by line:
login wait, the four authenticated upload exchanges, the digest request
write, then the digest pattern wait with timeout 5 whose miss warns and
returns early; on a capture, the captured digest is compared with the
local digest and a mismatch only records a warning; then the chmod and
execute exchanges, a bare prompt wait with no write, the poweroff
exchange and the final confirmation write of y. -/
def configureBody (env : Env) (local_checksum : String) (config : List Nat) : List Event × Exit :=
  match env 0 with
  | ReadResult.timedOut _ => ([Event.opened], Exit.hang)
  | ReadResult.eof => ([Event.opened], Exit.exc)
  | ReadResult.matched _ =>
    match runSteps env 1 (configStepsA config) with
    | (evsA, true) => (Event.opened :: evsA, Exit.exc)
    | (evsA, false) =>
      match env 5 with
      | ReadResult.eof => (Event.opened :: evsA ++ [Event.wrote md5Cmd], Exit.exc)
      | ReadResult.timedOut _ =>
          (Event.opened :: evsA ++ [Event.wrote md5Cmd, Event.warned], Exit.earlyRet)
      | ReadResult.matched m =>
        let warnEvs := if uploadedChecksumOf m ≠ local_checksum then [Event.warned] else []
        match runSteps env 6 configStepsB with
        | (evsB, true) =>
            (Event.opened :: evsA ++ [Event.wrote md5Cmd] ++ warnEvs ++ evsB, Exit.exc)
        | (evsB, false) =>
          match env 8 with
          | ReadResult.eof =>
              (Event.opened :: evsA ++ [Event.wrote md5Cmd] ++ warnEvs ++ evsB, Exit.exc)
          | _ =>
            match runSteps env 9 [configStepPoweroff] with
            | (evsC, true) =>
                (Event.opened :: evsA ++ [Event.wrote md5Cmd] ++ warnEvs ++ evsB ++ evsC, Exit.exc)
            | (evsC, false) =>
                (Event.opened :: evsA ++ [Event.wrote md5Cmd] ++ warnEvs ++ evsB ++ evsC
                  ++ [Event.wrote (strBytes ("y\n"))], Exit.normal)

/-- Trace semantics of configure_vyos_image_on_node: optionally spawn
the helper, compute the local checksum of the script file (first file
read), read and base64 encode the script file (second file read), run
the configure dialogue inside the with-block, and kill the helper after
the with-block on the normal path. -/
def configure_vyos_image_on_node (env : Env) (fs : String → List Nat) (path_script : String)
    (pre_exec : Option String) : List Event × Exit :=
  sessionWrap pre_exec
    ((if pre_exec.isSome then [Event.spawned] else [])
      ++ [Event.fileRead path_script, Event.fileRead path_script])
    (configureBody env (md5sum_file fs path_script) (b64encode (fs path_script)))

/-- GNS3 server coordinates, from the Server named tuple. -/
structure Server where
  addr : String
  port : Nat
  auth : Bool
  user : String
  password : String
deriving DecidableEq, Repr

/-- The node metadata fields that get_node_telnet_host_port reads from
the topology service response. -/
structure NodeInfo where
  console_type : String
  console_host : String
  console : Nat
deriving DecidableEq, Repr

/-- Console endpoint resolution, from get_node_telnet_host_port: assert
that the console type is telnet (a failed assertion raises, modelled as
none), then replace a wildcard console host by the server address and
pair it with the reported console port. -/
def get_node_telnet_host_port (server : Server) (node : NodeInfo) : Option (String × Nat) :=
  if node.console_type = "telnet" then
    if node.console_host = "0.0.0.0" ∨ node.console_host = "::" then
      some (server.addr, node.console)
    else
      some (node.console_host, node.console)
  else
    none


/-- When no read hits end of file, a step list runs to completion: every
write is performed, in order, and no exception is raised, whether or not
individual expect calls time out. -/
theorem runSteps_no_eof (env : Env) (steps : List Step) :
    ∀ i, (∀ j, env j ≠ ReadResult.eof) →
      runSteps env i steps = (steps.map (fun s => Event.wrote s.send), false) := by
  induction steps with
  | nil => intro i _; rfl
  | cons s rest ih =>
      intro i h
      rw [runSteps]
      cases he : env i with
      | eof => exact absurd he (h i)
      | matched d => simp [ih (i + 1) h]
      | timedOut d => simp [ih (i + 1) h]

/-- Every event of a step list run is a transport write. -/
theorem runSteps_events_wrote (env : Env) (steps : List Step) :
    ∀ i e, e ∈ (runSteps env i steps).1 → ∃ d, e = Event.wrote d := by
  induction steps with
  | nil => intro i e he; simp [runSteps] at he
  | cons s rest ih =>
      intro i e he
      rw [runSteps] at he
      split at he
      · simp at he; exact ⟨s.send, he⟩
      · simp at he
        rcases he with he | he
        · exact ⟨s.send, he⟩
        · exact ih (i + 1) e he

/-- A step list run contains no occurrence of a non-write event. -/
theorem runSteps_count (env : Env) (steps : List Step) (a : Event)
    (ha : ∀ d, a ≠ Event.wrote d) : ∀ i, (runSteps env i steps).1.count a = 0 := by
  induction steps with
  | nil => intro i; rfl
  | cons s rest ih =>
      intro i
      have hb : ¬(Event.wrote s.send = a) := fun h => ha s.send h.symm
      rw [runSteps]
      split
      · simp [List.count_cons, hb]
      · simp [List.count_cons, hb, ih (i + 1)]

/-- A step list run contains no close event. -/
theorem runSteps_count_closed (env : Env) (steps : List Step) (i : Nat) :
    (runSteps env i steps).1.count Event.closed = 0 :=
  runSteps_count env steps Event.closed (fun _ h => Event.noConfusion h) i

/-- A step list run contains no file read event. -/
theorem runSteps_count_fileRead (env : Env) (steps : List Step) (i : Nat) (q : String) :
    (runSteps env i steps).1.count (Event.fileRead q) = 0 :=
  runSteps_count env steps (Event.fileRead q) (fun _ h => Event.noConfusion h) i

/-- The wrapper preserves the exit status of the body. -/
theorem sessionWrap_exit (pre_exec : Option String) (front : List Event) (body : List Event × Exit) :
    (sessionWrap pre_exec front body).2 = body.2 := by
  unfold sessionWrap
  rcases body with ⟨evs, e⟩
  cases e <;> rfl

/-- The install body emits no close event. -/
theorem installBody_count_closed (env : Env) :
    (installBody env).1.count Event.closed = 0 := by
  have hA := runSteps_count_closed env installSteps 1
  unfold installBody
  rcases hrA : runSteps env 1 installSteps with ⟨evsA, bA⟩
  rw [hrA] at hA
  simp only at hA
  repeat' split
  all_goals simp_all [List.count_cons, List.count_append]

/-- The configure body emits no close event. -/
theorem configureBody_count_closed (env : Env) (ck : String) (cfg : List Nat) :
    (configureBody env ck cfg).1.count Event.closed = 0 := by
  have hA := runSteps_count_closed env (configStepsA cfg) 1
  have hB := runSteps_count_closed env configStepsB 6
  have hC := runSteps_count_closed env [configStepPoweroff] 9
  unfold configureBody
  rcases hrA : runSteps env 1 (configStepsA cfg) with ⟨evsA, bA⟩
  rcases hrB : runSteps env 6 configStepsB with ⟨evsB, bB⟩
  rcases hrC : runSteps env 9 [configStepPoweroff] with ⟨evsC, bC⟩
  rw [hrA] at hA
  rw [hrB] at hB
  rw [hrC] at hC
  simp only at hA hB hC
  repeat' split
  all_goals simp_all [List.count_cons, List.count_append]

/-- The configure body emits no file read event. -/
theorem configureBody_count_fileRead (env : Env) (ck : String) (cfg : List Nat) (q : String) :
    (configureBody env ck cfg).1.count (Event.fileRead q) = 0 := by
  have hA := runSteps_count_fileRead env (configStepsA cfg) 1 q
  have hB := runSteps_count_fileRead env configStepsB 6 q
  have hC := runSteps_count_fileRead env [configStepPoweroff] 9 q
  unfold configureBody
  rcases hrA : runSteps env 1 (configStepsA cfg) with ⟨evsA, bA⟩
  rcases hrB : runSteps env 6 configStepsB with ⟨evsB, bB⟩
  rcases hrC : runSteps env 9 [configStepPoweroff] with ⟨evsC, bC⟩
  rw [hrA] at hA
  rw [hrB] at hB
  rw [hrC] at hC
  simp only at hA hB hC
  repeat' split
  all_goals simp_all [List.count_cons, List.count_append]

/-- Closed form of the install body when the login banner arrives and no
read hits end of file: regardless of expect timeouts, every write of
every step is sent and the body completes normally. -/
theorem installBody_no_eof (env : Env) (d0 : List Nat)
    (h0 : env 0 = ReadResult.matched d0) (hne : ∀ j, env j ≠ ReadResult.eof) :
    installBody env =
      (Event.opened :: installSteps.map (fun s => Event.wrote s.send)
        ++ [Event.wrote (strBytes ("y\n"))], Exit.normal) := by
  unfold installBody
  rw [h0, runSteps_no_eof env installSteps 1 hne]

/-- Closed form of the configure body when the login banner arrives, no
read hits end of file and the digest pattern wait times out: the four
upload exchanges and the digest request are written, a warning is
emitted, the body returns early and nothing else is written. -/
theorem configureBody_digest_timeout (env : Env) (ck : String) (cfg : List Nat)
    (d0 m : List Nat) (h0 : env 0 = ReadResult.matched d0)
    (hne : ∀ j, env j ≠ ReadResult.eof) (h5 : env 5 = ReadResult.timedOut m) :
    configureBody env ck cfg =
      (Event.opened :: (configStepsA cfg).map (fun s => Event.wrote s.send)
        ++ [Event.wrote md5Cmd, Event.warned], Exit.earlyRet) := by
  unfold configureBody
  rw [h0, runSteps_no_eof env (configStepsA cfg) 1 hne, h5]

/-- Closed form of the configure body when the login banner arrives, no
read hits end of file and the digest pattern is captured: the whole
dialogue is executed; a digest mismatch contributes exactly one warning
event after the digest request and the body still completes normally. -/
theorem configureBody_digest_matched (env : Env) (ck : String) (cfg : List Nat)
    (d0 m : List Nat) (h0 : env 0 = ReadResult.matched d0)
    (hne : ∀ j, env j ≠ ReadResult.eof) (h5 : env 5 = ReadResult.matched m) :
    configureBody env ck cfg =
      (Event.opened :: (configStepsA cfg).map (fun s => Event.wrote s.send)
        ++ [Event.wrote md5Cmd]
        ++ (if uploadedChecksumOf m ≠ ck then [Event.warned] else [])
        ++ configStepsB.map (fun s => Event.wrote s.send)
        ++ [Event.wrote configStepPoweroff.send]
        ++ [Event.wrote (strBytes ("y\n"))], Exit.normal) := by
  unfold configureBody
  rw [h0, runSteps_no_eof env (configStepsA cfg) 1 hne, h5,
    runSteps_no_eof env configStepsB 6 hne,
    runSteps_no_eof env [configStepPoweroff] 9 hne]
  cases h8 : env 8 with
  | eof => exact absurd h8 (hne 8)
  | matched w => simp
  | timedOut w => simp

/-- No byte of a base64 encoding is a newline. -/
theorem b64encode_ne_10 : ∀ (l : List Nat), ∀ b ∈ b64encode l, b ≠ 10
  | [] => by simp [b64encode]
  | [a] => by simp [b64encode, b64char_ne_10]
  | [a, b] => by simp [b64encode, b64char_ne_10]
  | a :: b :: c :: rest => by
      have ih := b64encode_ne_10 rest
      simp only [b64encode, List.mem_cons]
      intro x hx
      rcases hx with hx | hx | hx | hx | hx
      · rw [hx]; exact b64char_ne_10 _
      · rw [hx]; exact b64char_ne_10 _
      · rw [hx]; exact b64char_ne_10 _
      · rw [hx]; exact b64char_ne_10 _
      · exact ih x hx

/-- The console double that answers every read with a pattern match. -/
def envAll : Env := fun _ => ReadResult.matched []

/-- The console double that lets the second read (the Password prompt
wait of either dialogue) time out and matches every other read. -/
def envStep1Timeout : Env := fun i => if i = 1 then ReadResult.timedOut [] else ReadResult.matched []

/-- The console double that lets the digest pattern wait of the
configure dialogue time out and matches every other read. -/
def envDigestTimeout : Env := fun i => if i = 5 then ReadResult.timedOut [] else ReadResult.matched []

/-- A file system double with a seven-byte script file everywhere. -/
def fsDemo : String → List Nat := fun _ => strBytes ("echo hi")

/-- Claim C7: for every local configuration file content, the text-safe
representation embedded in the upload shell command decodes back to
exactly the original bytes: the remote file holds the base64 encoding
plus the newline appended by echo, and base64 decoding (which ignores
the newline) returns precisely the content read from the local file. -/
theorem upload_base64_roundtrip (content : List Nat) (h : ∀ b ∈ content, b < 256) :
    gnuB64Decode (b64encode content ++ [10]) = some content := by
  unfold gnuB64Decode
  rw [List.filter_append]
  have hf : (b64encode content).filter (fun b => b != 10) = b64encode content := by
    apply List.filter_eq_self.mpr
    intro a ha
    simpa using b64encode_ne_10 content a ha
  rw [hf]
  simpa using b64decode_b64encode content h

/-- Witness for C7 at the concrete seven-byte script content. -/
theorem upload_base64_roundtrip_witness :
    gnuB64Decode (b64encode (strBytes ("echo hi")) ++ [10]) = some (strBytes ("echo hi")) :=
  upload_base64_roundtrip (strBytes ("echo hi")) (by decide)

/-- Claim C8: the checksum digest is a pure deterministic function of
the file bytes: two digests of the same content are equal, and the
digest depends only on the byte content read from the file, not on the
file name or any other state. -/
theorem md5sum_file_deterministic_pure (fs1 fs2 : String → List Nat) (n1 n2 : String) :
    md5sum_file fs1 n1 = md5sum_file fs1 n1
    ∧ (fs1 n1 = fs2 n2 → md5sum_file fs1 n1 = md5sum_file fs2 n2) := by
  refine ⟨rfl, fun h => ?_⟩
  unfold md5sum_file
  rw [h]

/-- Witness for C8: two file system doubles agreeing on the content of
two different names give the same digest. -/
theorem md5sum_file_deterministic_pure_witness :
    md5sum_file (fun _ => strBytes ("echo hi")) ("a.sh")
      = md5sum_file (fun _ => strBytes ("echo hi")) ("b.sh") :=
  (md5sum_file_deterministic_pure (fun _ => strBytes ("echo hi"))
    (fun _ => strBytes ("echo hi")) ("a.sh") ("b.sh")).2 rfl

/-- A concrete GNS3 server for witnesses. -/
def serverDemo : Server := ⟨"198.51.100.1", 3080, false, "admin", "admin"⟩

/-- A concrete node reporting a wildcard telnet console for witnesses. -/
def nodeDemo : NodeInfo := ⟨"telnet", "0.0.0.0", 5000⟩

/-- Claim C10: endpoint resolution returns the server address when the
node reports a wildcard console host, the reported host otherwise,
always pairs it with the reported console port, and fails the assertion
for any console type other than telnet. -/
theorem get_node_telnet_host_port_resolution (server : Server) (node : NodeInfo) :
    (node.console_type = "telnet" →
      ((node.console_host = "0.0.0.0" ∨ node.console_host = "::") →
          get_node_telnet_host_port server node = some (server.addr, node.console))
      ∧ (node.console_host ≠ "0.0.0.0" → node.console_host ≠ "::" →
          get_node_telnet_host_port server node = some (node.console_host, node.console)))
    ∧ (node.console_type ≠ "telnet" → get_node_telnet_host_port server node = none) := by
  unfold get_node_telnet_host_port
  constructor
  · intro ht
    constructor
    · intro hw
      rw [if_pos ht, if_pos hw]
    · intro h1 h2
      rw [if_pos ht, if_neg (by simp [h1, h2])]
  · intro ht
    rw [if_neg ht]

/-- Witness for C10: the wildcard host of the demo node resolves to the
server address with the reported port. -/
theorem get_node_telnet_host_port_resolution_witness :
    get_node_telnet_host_port serverDemo nodeDemo = some (serverDemo.addr, nodeDemo.console) :=
  ((get_node_telnet_host_port_resolution serverDemo nodeDemo).1 rfl).1 (Or.inl rfl)

/-- A session whose body does not hang closes the transport exactly once
provided neither the front events nor the body contain a close event. -/
theorem sessionWrap_count_closed (pre : Option String) (front : List Event)
    (body : List Event × Exit) (hf : front.count Event.closed = 0)
    (hb : body.1.count Event.closed = 0) (hh : body.2 ≠ Exit.hang) :
    (sessionWrap pre front body).1.count Event.closed = 1 := by
  unfold sessionWrap
  rcases body with ⟨evs, ex⟩
  simp only at hb hh
  cases ex with
  | hang => exact absurd rfl hh
  | normal => cases pre <;> simp [List.count_append, List.count_cons, hf, hb]
  | earlyRet => simp [List.count_append, List.count_cons, hf, hb]
  | exc => simp [List.count_append, List.count_cons, hf, hb]

/-- The session trace is the front events, then the body events, then
trailing events none of which is a file read. -/
theorem sessionWrap_shape (pre : Option String) (front : List Event) (body : List Event × Exit) :
    ∃ tailEvs, (sessionWrap pre front body).1 = front ++ body.1 ++ tailEvs
      ∧ ∀ q, tailEvs.count (Event.fileRead q) = 0 := by
  unfold sessionWrap
  rcases body with ⟨evs, ex⟩
  cases ex with
  | hang => exact ⟨[], by simp, by intro q; simp⟩
  | normal =>
      refine ⟨[Event.closed] ++ (if pre.isSome then [Event.killed] else []), by simp, ?_⟩
      intro q
      cases pre <;> simp [List.count_append, List.count_cons]
  | earlyRet => exact ⟨[Event.closed], by simp, by intro q; simp [List.count_cons]⟩
  | exc => exact ⟨[Event.closed], by simp, by intro q; simp [List.count_cons]⟩

/-- The configure body trace always starts with the transport open. -/
theorem configureBody_head_opened (env : Env) (ck : String) (cfg : List Nat) :
    ∃ tail, (configureBody env ck cfg).1 = Event.opened :: tail := by
  unfold configureBody
  repeat' split
  all_goals exact ⟨_, rfl⟩

/-- Claim C1, amended: a step whose expected pattern misses its deadline
does not abort the session and does not suppress later writes.  In the
install dialogue every later step byte sequence is still written and the
run still completes normally whenever the login banner arrives and no
read hits end of file, timeouts included; in the configure dialogue the
same holds whenever additionally the digest pattern wait is the one read
that must match (its timeout is the sole aborting case, settled with
claim C5). -/
theorem step_timeouts_do_not_abort :
    (∀ (env : Env) (d0 : List Nat), env 0 = ReadResult.matched d0 →
        (∀ j, env j ≠ ReadResult.eof) →
        install_vyos_image_on_node env none =
          (Event.opened :: installSteps.map (fun s => Event.wrote s.send)
            ++ [Event.wrote (strBytes ("y\n")), Event.closed], Exit.normal))
    ∧ (∀ (env : Env) (fs : String → List Nat) (path : String) (d0 m : List Nat),
        env 0 = ReadResult.matched d0 → (∀ j, env j ≠ ReadResult.eof) →
        env 5 = ReadResult.matched m →
        (configure_vyos_image_on_node env fs path none).2 = Exit.normal
        ∧ Event.wrote configStepPoweroff.send ∈ (configure_vyos_image_on_node env fs path none).1) := by
  constructor
  · intro env d0 h0 hne
    unfold install_vyos_image_on_node
    rw [installBody_no_eof env d0 h0 hne]
    simp [sessionWrap]
  · intro env fs path d0 m h0 hne h5
    unfold configure_vyos_image_on_node
    rw [configureBody_digest_matched env _ _ d0 m h0 hne h5]
    constructor
    · simp [sessionWrap]
    · simp [sessionWrap]

/-- Witness for the amended C1: under the double that times out the
Password wait, the install dialogue still writes every later step. -/
theorem step_timeouts_do_not_abort_witness :
    install_vyos_image_on_node envStep1Timeout none =
      (Event.opened :: installSteps.map (fun s => Event.wrote s.send)
        ++ [Event.wrote (strBytes ("y\n")), Event.closed], Exit.normal) :=
  step_timeouts_do_not_abort.1 envStep1Timeout [] (by decide)
    (by intro j; unfold envStep1Timeout; split <;> simp)

/-- Counterexample to claim C1 as stated: under the double that
withholds the Password pattern past the ten second deadline of step one,
the trace still contains the install image invocation bytes of the later
step, so bytes of steps after the timed out step are written. -/
theorem install_step_timeout_cex :
    envStep1Timeout 1 = ReadResult.timedOut []
    ∧ Event.wrote (strBytes ("install image\n")) ∈ (install_vyos_image_on_node envStep1Timeout none).1 := by
  decide

/-- Claim C2: a digest mismatch is recorded as a warning and the
dialogue still proceeds: the trace carries the warning and then the
chmod step, the script execution step and the poweroff step writes, and
the session still completes normally. -/
theorem configure_checksum_mismatch_proceeds (env : Env) (fs : String → List Nat)
    (path : String) (pre : Option String) (d0 m : List Nat)
    (h0 : env 0 = ReadResult.matched d0) (hne : ∀ j, env j ≠ ReadResult.eof)
    (h5 : env 5 = ReadResult.matched m)
    (hdiff : uploadedChecksumOf m ≠ md5sum_file fs path) :
    configure_vyos_image_on_node env fs path pre =
      ((if pre.isSome then [Event.spawned] else [])
        ++ [Event.fileRead path, Event.fileRead path]
        ++ Event.opened :: (configStepsA (b64encode (fs path))).map (fun s => Event.wrote s.send)
        ++ [Event.wrote md5Cmd, Event.warned]
        ++ configStepsB.map (fun s => Event.wrote s.send)
        ++ [Event.wrote configStepPoweroff.send, Event.wrote (strBytes ("y\n")), Event.closed]
        ++ (if pre.isSome then [Event.killed] else []), Exit.normal) := by
  unfold configure_vyos_image_on_node
  rw [configureBody_digest_matched env _ _ d0 m h0 hne h5]
  simp [sessionWrap, hdiff]

/-- Witness for C2: the double that replies with an empty digest capture
mismatches the local digest of the demo file; the dialogue proceeds to
chmod, execution and poweroff and completes normally. -/
theorem configure_checksum_mismatch_proceeds_witness :
    configure_vyos_image_on_node envAll fsDemo ("config.sh") none =
      ([Event.fileRead ("config.sh"), Event.fileRead ("config.sh")]
        ++ Event.opened :: (configStepsA (b64encode (fsDemo ("config.sh")))).map (fun s => Event.wrote s.send)
        ++ [Event.wrote md5Cmd, Event.warned]
        ++ configStepsB.map (fun s => Event.wrote s.send)
        ++ [Event.wrote configStepPoweroff.send, Event.wrote (strBytes ("y\n")), Event.closed], Exit.normal) := by
  have h := configure_checksum_mismatch_proceeds envAll fsDemo ("config.sh") none [] []
    rfl (by intro j; simp [envAll]) rfl (by decide)
  simpa using h

/-- Claim C3: on every exit path that returns to the caller (normal
completion, the early digest abort, and an exception raised mid
dialogue) the transport is closed exactly once before the outcome is
returned, for both the install and the configure session.  The only
excluded case is a session that never returns because the deadline-free
initial read blocks forever. -/
theorem transport_closed_exactly_once :
    (∀ (env : Env) (pre : Option String),
        (install_vyos_image_on_node env pre).2 ≠ Exit.hang →
        (install_vyos_image_on_node env pre).1.count Event.closed = 1)
    ∧ (∀ (env : Env) (fs : String → List Nat) (path : String) (pre : Option String),
        (configure_vyos_image_on_node env fs path pre).2 ≠ Exit.hang →
        (configure_vyos_image_on_node env fs path pre).1.count Event.closed = 1) := by
  constructor
  · intro env pre h
    unfold install_vyos_image_on_node at h ⊢
    rw [sessionWrap_exit] at h
    exact sessionWrap_count_closed pre _ _ (by cases pre <;> simp) (installBody_count_closed env) h
  · intro env fs path pre h
    unfold configure_vyos_image_on_node at h ⊢
    rw [sessionWrap_exit] at h
    exact sessionWrap_count_closed pre _ _
      (by cases pre <;> simp [List.count_append, List.count_cons])
      (configureBody_count_closed env (md5sum_file fs path) (b64encode (fs path))) h

/-- Witness for C3: the all-matching double closes the install transport
exactly once. -/
theorem transport_closed_exactly_once_witness :
    (install_vyos_image_on_node envAll none).1.count Event.closed = 1 :=
  transport_closed_exactly_once.1 envAll none (by decide)

/-- Claim C4 is refuted by the code: when the digest pattern wait times
out while a terminal-viewer helper was launched, the session takes the
early return, and the helper is spawned but never killed, leaking the
process; the trailing pre_proc.kill() is only reached on the normal
path. -/
theorem helper_not_killed_on_early_return :
    Event.spawned ∈ (configure_vyos_image_on_node envDigestTimeout fsDemo ("config.sh")
        (some ("konsole -e telnet localhost 5000"))).1
    ∧ Event.killed ∉ (configure_vyos_image_on_node envDigestTimeout fsDemo ("config.sh")
        (some ("konsole -e telnet localhost 5000"))).1
    ∧ (configure_vyos_image_on_node envDigestTimeout fsDemo ("config.sh")
        (some ("konsole -e telnet localhost 5000"))).2 = Exit.earlyRet := by
  decide

/-- Claim C5: when the digest pattern never matches within its deadline
the configure session aborts with a diagnostic: a warning is emitted,
the transport is closed, the session returns early, and the trace ends
without the chmod, script-execution and poweroff writes. -/
theorem configure_digest_timeout_aborts (env : Env) (fs : String → List Nat)
    (path : String) (d0 m : List Nat)
    (h0 : env 0 = ReadResult.matched d0) (hne : ∀ j, env j ≠ ReadResult.eof)
    (h5 : env 5 = ReadResult.timedOut m) :
    configure_vyos_image_on_node env fs path none =
      ([Event.fileRead path, Event.fileRead path]
        ++ Event.opened :: (configStepsA (b64encode (fs path))).map (fun s => Event.wrote s.send)
        ++ [Event.wrote md5Cmd, Event.warned, Event.closed], Exit.earlyRet) := by
  unfold configure_vyos_image_on_node
  rw [configureBody_digest_timeout env _ _ d0 m h0 hne h5]
  simp [sessionWrap]

/-- Witness for C5 under the double that times out the digest wait. -/
theorem configure_digest_timeout_aborts_witness :
    configure_vyos_image_on_node envDigestTimeout fsDemo ("config.sh") none =
      ([Event.fileRead ("config.sh"), Event.fileRead ("config.sh")]
        ++ Event.opened :: (configStepsA (b64encode (fsDemo ("config.sh")))).map (fun s => Event.wrote s.send)
        ++ [Event.wrote md5Cmd, Event.warned, Event.closed], Exit.earlyRet) :=
  configure_digest_timeout_aborts envDigestTimeout fsDemo ("config.sh") [] []
    (by decide) (by intro j; unfold envDigestTimeout; split <;> simp) (by decide)

/-- Counterexample to the deadline clause of claim C6: the first step of
the installation script, the wait for the login banner, is performed by
read_until with no timeout argument, so its deadline is neither ten nor
thirty seconds but absent altogether. -/
theorem install_login_wait_no_deadline_cex :
    loginStep ∈ installScript
    ∧ ¬(∀ s ∈ installScript, s.deadline = some 10 ∨ s.deadline = some 30) := by
  decide

/-- Claim C6, amended: the installation dialogue is the fixed linear
script listed in installSteps; every send-and-expect step carries a
deadline of ten seconds except the thirty second root-partition,
image-name, image-copy-source and post-install prompt waits; the same
fixed password bytes are sent at the password-entry and the
password-confirmation prompts; the initial login banner wait alone has
no deadline; and against a double that matches every awaited pattern the
session writes every step in order, ends with the poweroff confirmation
and completes normally with a single close. -/
theorem install_script_fixed_dialogue :
    installScript = loginStep :: installSteps
    ∧ loginStep.deadline = none
    ∧ installSteps.map Step.deadline =
        [some 10, some 10, some 10, some 10, some 10, some 10, some 30, some 30, some 30,
         some 10, some 10, some 10, some 30, some 10]
    ∧ (installSteps.map Step.send).getD 10 [] = strBytes ("vyos\n")
    ∧ (installSteps.map Step.send).getD 10 [] = (installSteps.map Step.send).getD 11 []
    ∧ (∀ (env : Env), (∀ j, (env j).isMatched = true) →
        install_vyos_image_on_node env none =
          (Event.opened :: installSteps.map (fun s => Event.wrote s.send)
            ++ [Event.wrote (strBytes ("y\n")), Event.closed], Exit.normal)) := by
  refine ⟨rfl, rfl, by decide, by decide, by decide, ?_⟩
  intro env h
  have h0 : ∃ d, env 0 = ReadResult.matched d := by
    rcases he : env 0 with d | d | _
    · exact ⟨d, rfl⟩
    · have := h 0; rw [he] at this; simp [ReadResult.isMatched] at this
    · have := h 0; rw [he] at this; simp [ReadResult.isMatched] at this
  obtain ⟨d0, h0⟩ := h0
  have hne : ∀ j, env j ≠ ReadResult.eof := by
    intro j hj
    have := h j
    rw [hj] at this
    simp [ReadResult.isMatched] at this
  unfold install_vyos_image_on_node
  rw [installBody_no_eof env d0 h0 hne]
  simp [sessionWrap]

/-- Witness for the amended C6 at the all-matching double. -/
theorem install_script_fixed_dialogue_witness :
    install_vyos_image_on_node envAll none =
      (Event.opened :: installSteps.map (fun s => Event.wrote s.send)
        ++ [Event.wrote (strBytes ("y\n")), Event.closed], Exit.normal) :=
  install_script_fixed_dialogue.2.2.2.2.2 envAll (fun _ => rfl)

/-- Counterexample to claim C9 as stated: one configure session reads
the configuration script file twice, not once: once to compute the local
digest and once to base64 encode the upload. -/
theorem configure_reads_file_twice_cex :
    (configure_vyos_image_on_node envAll fsDemo ("config.sh") none).1.count
        (Event.fileRead ("config.sh")) = 2 := by
  decide

/-- Claim C9, amended: the configuration script file is read exactly
twice, in full, and both reads complete before the transport to the
console is opened; after the session starts the file is never read
again, on any path and for any console double. -/
theorem configure_file_reads_precede_session (env : Env) (fs : String → List Nat)
    (path : String) (pre : Option String) :
    ∃ rest, (configure_vyos_image_on_node env fs path pre).1
        = (if pre.isSome then [Event.spawned] else [])
          ++ Event.fileRead path :: Event.fileRead path :: Event.opened :: rest
      ∧ ∀ q, rest.count (Event.fileRead q) = 0 := by
  obtain ⟨tailEvs, hshape, htcnt⟩ := sessionWrap_shape pre
    ((if pre.isSome then [Event.spawned] else [])
      ++ [Event.fileRead path, Event.fileRead path])
    (configureBody env (md5sum_file fs path) (b64encode (fs path)))
  obtain ⟨tail, htail⟩ := configureBody_head_opened env (md5sum_file fs path) (b64encode (fs path))
  have hcnt : ∀ q, tail.count (Event.fileRead q) = 0 := by
    intro q
    have hc := configureBody_count_fileRead env (md5sum_file fs path) (b64encode (fs path)) q
    rw [htail] at hc
    simpa [List.count_cons] using hc
  refine ⟨tail ++ tailEvs, ?_, ?_⟩
  · unfold configure_vyos_image_on_node
    rw [hshape, htail]
    simp
  · intro q
    simp [List.count_append, hcnt q, htcnt q]
